import Mathlib

/-!
Verification of the printer connection lifecycle manager and chunked
print-delivery pipeline of the POINT-OF-SALE-SYSTEM repository.

The JavaScript managers are shallowly embedded: each registry is a list of
printer records (insertion-ordered, as a JS Map), object mutation becomes
in-place update of the first matching list entry, asynchronous transport
calls become explicit outcome parameters, and thrown exceptions become
Except values carrying the thrown message.
-/

namespace POSPrinter

/-- Printer status strings used by all manager variants. -/
inductive PStatus
  | disconnected
  | connecting
  | connected
  | failed
deriving DecidableEq, Repr

/-- A Bluetooth printer record as stored in the connectedPrinters map of the
Bluetooth manager variants.  The volatile device and server handles are
modelled by the booleans hasDevice / hasServer (object reference non-null),
together with deviceGattConnected for the device.gatt.connected flag. -/
structure Printer where
  id : String
  name : String
  deviceId : String
  hasDevice : Bool
  hasServer : Bool
  deviceGattConnected : Bool
  status : PStatus
  connectedAt : Nat
  lastUsed : Nat
  connectionAttempts : Nat
  shared : Bool
deriving DecidableEq, Repr

/-- A WiFi printer record as stored by wifi-printer-manager.js and the
variant in src/unnamed/part_002. -/
structure WPrinter where
  id : String
  name : String
  ip : String
  port : Nat
  status : PStatus
  lastUsed : Nat
deriving DecidableEq, Repr

/-- JS Map.get by key: first (unique) entry with the given id. -/
def findById (reg : List Printer) (pid : String) : Option Printer :=
  reg.find? (fun p => p.id == pid)

/-- In-place mutation of the object returned by a lookup: update the first
entry satisfying the predicate, leave everything else untouched. -/
def updateFirst (pred : α → Bool) (f : α → α) : List α → List α
  | [] => []
  | x :: xs => if pred x then f x :: xs else x :: updateFirst pred f xs

/-- Removal of the first entry satisfying the predicate (JS Map.delete). -/
def eraseFirst (pred : α → Bool) : List α → List α
  | [] => []
  | x :: xs => if pred x then xs else x :: eraseFirst pred xs

/-- One chunk write issued by a chunked send loop: the byte offset of the
chunk inside the payload, the number of bytes written, and whether a pacing
delay is awaited after this write. -/
structure ChunkWrite where
  offset : Nat
  bytes : Nat
  delayAfter : Bool
deriving DecidableEq, Repr

/-- The chunking loop of sendPrintData (src/unnamed/part_000, lines 632 to
644, equally part_001 lines 341 to 348): for (let i = 0; i < data.length;
i += maxChunkSize) write data.slice(i, i + maxChunkSize), awaiting the
pacing delay only when i + maxChunkSize < data.length.  C is the chunk
size (244 in the source), L the payload byte length, i the loop index. -/
def sendPrintChunks (C : Nat) (hC : 0 < C) (L i : Nat) : List ChunkWrite :=
  if _h : i < L then
    ⟨i, min C (L - i), decide (i + C < L)⟩ :: sendPrintChunks C hC L (i + C)
  else
    []
termination_by L - i
decreasing_by omega

/-- The chunking loop of sendDataInChunks
(src/static/js/separate-bluetooth-manager.js, lines 364 to 384): chunk size
fixed at 20 bytes, and the pacing delay is awaited after every chunk,
including the final one. -/
def sendDataInChunks (L i : Nat) : List ChunkWrite :=
  if _h : i < L then
    ⟨i, min 20 (L - i), true⟩ :: sendDataInChunks L (i + 20)
  else
    []
termination_by L - i
decreasing_by omega

/-- One persisted Bluetooth connection entry, exactly the fields serialized
by savePersistedConnections in every Bluetooth manager variant
(src/unnamed/part_000 lines 153 to 169): id, name, deviceId, connectedAt,
lastUsed.  Note that no status field and no handles are persisted. -/
structure SavedBtConn where
  id : String
  name : String
  deviceId : String
  connectedAt : Nat
  lastUsed : Nat
deriving DecidableEq, Repr

/-- The snapshot written to localStorage by savePersistedConnections. -/
def savePersistedConnections (reg : List Printer) : List SavedBtConn :=
  reg.map fun p => ⟨p.id, p.name, p.deviceId, p.connectedAt, p.lastUsed⟩

namespace Enhanced

/-- Observable side effects of handleDisconnection in the Enhanced manager,
in program order. -/
inductive BtEvent
  | broadcastDisconnected (pid : String)
  | reconnectBegin
  | notifyDisconnected (pid : String)
  | persistWrite (snapshot : List SavedBtConn)
deriving DecidableEq, Repr

def isPersist : BtEvent → Bool
  | .persistWrite _ => true
  | _ => false

def isReconnectBegin : BtEvent → Bool
  | .reconnectBegin => true
  | _ => false

/-- handleDisconnection from src/unnamed/part_000 lines 299 to 321: set the
record to disconnected, null the handles, bump connectionAttempts, broadcast
the disconnection, kick off attemptReconnectFromPairedDevices when
getDevices is supported and the record is shared (the call runs its
synchronous prefix immediately, so the reconnection attempt begins at this
point in program order), then notify and finally savePersistedConnections. -/
def handleDisconnection (supportsGetDevices : Bool) (reg : List Printer)
    (printerId : String) : List Printer × List BtEvent :=
  match findById reg printerId with
  | none => (reg, [])
  | some p =>
    let reg1 := updateFirst (fun q => q.id == printerId)
      (fun q => { q with
                  status := PStatus.disconnected
                  hasDevice := false
                  hasServer := false
                  deviceGattConnected := false
                  connectionAttempts := q.connectionAttempts + 1 }) reg
    let evs := [BtEvent.broadcastDisconnected printerId]
      ++ (if supportsGetDevices && p.shared then [BtEvent.reconnectBegin] else [])
      ++ [BtEvent.notifyDisconnected printerId,
          BtEvent.persistWrite (savePersistedConnections reg1)]
    (reg1, evs)

/-- getConnectedPrinters from part_000 lines 524 to 529: records whose
status is connected and whose device and server handles are non-null. -/
def getConnectedPrinters (reg : List Printer) : List Printer :=
  reg.filter fun p => p.status == PStatus.connected && p.hasDevice && p.hasServer

/-- printToPrinter from part_000 lines 537 to 560: throw Printer not
connected when the id is unknown or the record is not connected, otherwise
run sendPrintData (modelled by the send parameter, which may throw).  The
lastUsed touch and metrics recording on success do not affect the result
and are omitted here. -/
def printToPrinter (reg : List Printer) (printerId : String)
    (send : Printer → Except String Bool) : Except String Bool :=
  match findById reg printerId with
  | none => Except.error "Printer not connected"
  | some p =>
    if p.status == PStatus.connected then send p
    else Except.error "Printer not connected"

/-- Per-printer result object collected by printToAllPrinters. -/
structure PrintResult where
  printerId : String
  success : Bool
  error : Option String
deriving DecidableEq, Repr

/-- The per-printer try/catch wrapper inside printToAllPrinters. -/
def toPrintResult (pid : String) (r : Except String Bool) : PrintResult :=
  match r with
  | Except.ok s => ⟨pid, s, none⟩
  | Except.error e => ⟨pid, false, some e⟩

/-- printToAllPrinters from part_000 lines 563 to 580: throw when no
printer is connected, otherwise fan out printToPrinter over every connected
record, catching each failure into a per-printer result. -/
def printToAllPrinters (reg : List Printer)
    (send : Printer → Except String Bool) : Except String (List PrintResult) :=
  let connected := getConnectedPrinters reg
  if connected.length = 0 then Except.error "No printers connected"
  else Except.ok (connected.map fun p => toPrintResult p.id (printToPrinter reg p.id send))

/-- disconnectPrinter from part_000 lines 652 to 663: only when the record
exists and still holds a device object is it deleted from the map and the
snapshot persisted; otherwise nothing happens at all.  The boolean reports
whether a persistence write occurred. -/
def disconnectPrinter (reg : List Printer) (printerId : String) :
    List Printer × Bool :=
  match findById reg printerId with
  | some p =>
    if p.hasDevice then (eraseFirst (fun q => q.id == printerId) reg, true)
    else (reg, false)
  | none => (reg, false)

/-- Cross-context message types posted by broadcastConnectionState. -/
inductive BMsgType
  | connected
  | reconnected
  | disconnected
deriving DecidableEq, Repr

/-- The metadata subset carried by a broadcast message
(part_000 lines 241 to 251). -/
structure BMsg where
  type : BMsgType
  id : String
  name : String
  deviceId : String
  status : PStatus
  connectedAt : Nat
  lastUsed : Nat
deriving DecidableEq, Repr

/-- handleBroadcastMessage from part_000 lines 259 to 288: on a connected
or reconnected message, if the local record matching the deviceId is
disconnected, copy name, connectedAt and lastUsed from the message; on a
disconnected message, force the matching local record to disconnected and
null its device and server references. -/
def handleBroadcastMessage (reg : List Printer) (m : BMsg) : List Printer :=
  if m.type == BMsgType.connected || m.type == BMsgType.reconnected then
    match reg.find? (fun p => p.deviceId == m.deviceId) with
    | some p =>
      if p.status == PStatus.disconnected then
        updateFirst (fun q => q.deviceId == m.deviceId)
          (fun q => { q with
                      name := m.name
                      connectedAt := m.connectedAt
                      lastUsed := m.lastUsed }) reg
      else reg
    | none => reg
  else if m.type == BMsgType.disconnected then
    match reg.find? (fun p => p.deviceId == m.deviceId) with
    | some _ =>
      updateFirst (fun q => q.deviceId == m.deviceId)
        (fun q => { q with
                    status := PStatus.disconnected
                    hasDevice := false
                    hasServer := false
                    deviceGattConnected := false }) reg
    | none => reg
  else reg

/-- loadPersistedConnections from part_000 lines 74 to 97: every loaded
record gets device null, server null and status disconnected; fields absent
from the snapshot (attempt counter, shared flag) are undefined, which the
rest of the code treats as 0 and false. -/
def loadPersistedConnections (saved : List SavedBtConn) : List Printer :=
  saved.map fun c =>
    { id := c.id
      name := c.name
      deviceId := c.deviceId
      hasDevice := false
      hasServer := false
      deviceGattConnected := false
      status := PStatus.disconnected
      connectedAt := c.connectedAt
      lastUsed := c.lastUsed
      connectionAttempts := 0
      shared := false }

/-- A previously paired or picker-selected Bluetooth device as seen by
attemptReconnection: its id, name, and gatt.connected flag. -/
structure BDevice where
  id : String
  name : String
  gattConnected : Bool
deriving DecidableEq, Repr

/-- The asynchronous environment of one attemptReconnection run: whether
getDevices is available, what it returns (none when it throws), what
requestDeviceWithTimeout yields (none when it throws, some none when the
user cancels and null is returned), and whether gatt.connect succeeds. -/
structure ReconnectEnv where
  supportsGetDevices : Bool
  getDevicesResult : Option (List BDevice)
  pickerResult : Option (Option BDevice)
  gattConnectOk : Bool
  now : Nat
deriving Repr

/-- Externally visible steps of attemptReconnection, in program order. -/
inductive RAction
  | silentLookup
  | pickerShown
  | gattConnect
deriving DecidableEq, Repr

/-- The device match predicate used both by the paired-device lookup and by
the post-selection check: device.id equals printer.deviceId or device.name
equals printer.name. -/
def deviceMatches (p : Printer) (d : BDevice) : Bool :=
  d.id == p.deviceId || d.name == p.name

/-- The record update performed on every successful reconnection path:
attach the handles, set status connected, touch lastUsed, reset the attempt
counter. -/
def markReconnected (env : ReconnectEnv) (reg : List Printer)
    (printerId : String) : List Printer :=
  updateFirst (fun q => q.id == printerId)
    (fun q => { q with
                hasDevice := true
                hasServer := true
                deviceGattConnected := true
                status := PStatus.connected
                lastUsed := env.now
                connectionAttempts := 0 }) reg

/-- The tail of attemptReconnection after a device has (or has not) been
obtained: check that the device matches the printer, connect its gatt
server unless already connected, and update the record on success. -/
def finishReconnection (env : ReconnectEnv) (reg : List Printer)
    (printerId : String) (p : Printer) (dev : Option BDevice)
    (acts : List RAction) : Bool × List RAction × List Printer :=
  match dev with
  | some d =>
    if deviceMatches p d then
      if d.gattConnected then
        (true, acts, markReconnected env reg printerId)
      else if env.gattConnectOk then
        (true, acts ++ [RAction.gattConnect], markReconnected env reg printerId)
      else
        (false, acts ++ [RAction.gattConnect], reg)
    else (false, acts, reg)
  | none => (false, acts, reg)

/-- The requestDeviceWithTimeout branch: the picker is shown; a thrown
selection error is caught and yields failure, a null (cancelled) or
non-matching device also yields failure via finishReconnection. -/
def pickerPhase (env : ReconnectEnv) (reg : List Printer) (printerId : String)
    (p : Printer) (acts : List RAction) : Bool × List RAction × List Printer :=
  match env.pickerResult with
  | none => (false, acts, reg)
  | some dev => finishReconnection env reg printerId p dev acts

/-- attemptReconnection(printerId, showPicker) from part_000 lines 344 to
427.  When getDevices is supported and showPicker is false, the paired
devices are consulted first without any picker; a paired match that is
already gatt-connected is adopted immediately.  Otherwise the source runs
if (not device or showPicker) device = requestDeviceWithTimeout(), which
opens the user-facing picker: so the picker opens whenever the silent
phase produced no device, regardless of showPicker.  When the silent phase
produced a not-yet-connected device, showPicker is necessarily false, the
condition is false and no picker opens.  Returns the success flag, the
actions in program order, and the updated registry. -/
def attemptReconnection (env : ReconnectEnv) (reg : List Printer)
    (printerId : String) (showPicker : Bool) :
    Bool × List RAction × List Printer :=
  match findById reg printerId with
  | none => (false, [], reg)
  | some p =>
    match (if env.supportsGetDevices && !showPicker then
             match env.getDevicesResult with
             | some paired => (paired.find? (deviceMatches p), [RAction.silentLookup])
             | none => ((none : Option BDevice), [RAction.silentLookup])
           else ((none : Option BDevice), ([] : List RAction))) with
    | (some d, acts) =>
      if d.gattConnected then
        (true, acts, markReconnected env reg printerId)
      else
        finishReconnection env reg printerId p (some d) acts
    | (none, acts) =>
      pickerPhase env reg printerId p (acts ++ [RAction.pickerShown])

/-- The device that the silent (no-picker) phase of attemptReconnection
yields, for stating when the picker opens. -/
def silentDevice (env : ReconnectEnv) (p : Printer) (showPicker : Bool) :
    Option BDevice :=
  if env.supportsGetDevices && !showPicker then
    env.getDevicesResult.bind fun paired => paired.find? (deviceMatches p)
  else none

end Enhanced

namespace SepBt

/-- loadPersistedConnections from
src/static/js/separate-bluetooth-manager.js lines 27 to 43: status is reset
to disconnected on load and the snapshot holds no handles. -/
def loadPersistedConnections (saved : List SavedBtConn) : List Printer :=
  saved.map fun c =>
    { id := c.id
      name := c.name
      deviceId := c.deviceId
      hasDevice := false
      hasServer := false
      deviceGattConnected := false
      status := PStatus.disconnected
      connectedAt := c.connectedAt
      lastUsed := c.lastUsed
      connectionAttempts := 0
      shared := false }

/-- printToBluetoothPrinter from separate-bluetooth-manager.js lines 214 to
244: an unknown id throws Printer not found, a known but not connected
record throws Printer not connected, otherwise sendDataToBluetoothDevice
(the send parameter) runs and a success object is returned. -/
def printToBluetoothPrinter (reg : List Printer) (printerId : String)
    (send : Printer → Except String Unit) : Except String Bool :=
  match findById reg printerId with
  | none => Except.error "Printer not found"
  | some p =>
    if p.status == PStatus.connected then
      match send p with
      | Except.ok _ => Except.ok true
      | Except.error e => Except.error e
    else Except.error "Printer not connected"

end SepBt

namespace Wifi

/-- One persisted WiFi connection entry as serialized by
savePersistedConnections of wifi-printer-manager.js lines 54 to 68: id,
name, ip, port, status, lastUsed.  The status field may be absent in old
snapshots, hence the Option. -/
structure SavedWifiConn where
  id : String
  name : String
  ip : String
  port : Nat
  status : Option PStatus
  lastUsed : Nat
deriving DecidableEq, Repr

/-- loadPersistedConnections of wifi-printer-manager.js lines 28 to 51: the
saved status is preserved (the source comment reads: Preserve the saved
status instead of forcing disconnected), defaulting to disconnected only
when the snapshot carries none. -/
def loadPersistedConnections (saved : List SavedWifiConn) : List WPrinter :=
  saved.map fun c =>
    { id := c.id
      name := c.name
      ip := c.ip
      port := c.port
      status := c.status.getD PStatus.disconnected
      lastUsed := c.lastUsed }

/-- findPrinterByAddress of wifi-printer-manager.js lines 100 to 107. -/
def findPrinterByAddress (reg : List WPrinter) (ip : String) (port : Nat) :
    Option WPrinter :=
  reg.find? fun p => p.ip == ip && p.port == port

/-- addPrinter of wifi-printer-manager.js lines 71 to 97: when a record
with the same ip and port exists, update its name and lastUsed in place and
return its id; otherwise append a fresh disconnected record under a newly
generated id. -/
def addPrinter (reg : List WPrinter) (newId : String) (now : Nat)
    (name ip : String) (port : Nat) : List WPrinter × String :=
  match findPrinterByAddress reg ip port with
  | some existing =>
    (updateFirst (fun p => p.ip == ip && p.port == port)
       (fun p => { p with name := name, lastUsed := now }) reg,
     existing.id)
  | none =>
    (reg ++ [{ id := newId
               name := name
               ip := ip
               port := port
               status := PStatus.disconnected
               lastUsed := now }],
     newId)

/-- printToPrinter of wifi-printer-manager.js lines 262 to 322: unknown id
or not connected throws Printer not connected; otherwise the backend print
request (the send parameter) decides the result. -/
def printToPrinter (reg : List WPrinter) (printerId : String)
    (send : WPrinter → Except String Bool) : Except String Bool :=
  match reg.find? (fun p => p.id == printerId) with
  | none => Except.error "Printer not connected"
  | some p =>
    if p.status == PStatus.connected then send p
    else Except.error "Printer not connected"

/-- The address key deduplicated by the WiFi registry. -/
def addrKey (p : WPrinter) : String × Nat := (p.ip, p.port)

/-- No two records share an (ip, port) address. -/
def NoDupAddr (reg : List WPrinter) : Prop := (reg.map addrKey).Nodup

instance : DecidablePred NoDupAddr := fun reg =>
  inferInstanceAs (Decidable (reg.map addrKey).Nodup)

end Wifi

namespace WifiLegacy

/-- addPrinter of src/unnamed/part_002 lines 67 to 83: always appends a
fresh record under a new id, with no address lookup at all. -/
def addPrinter (reg : List WPrinter) (newId : String) (now : Nat)
    (name ip : String) (port : Nat) : List WPrinter × String :=
  (reg ++ [{ id := newId
             name := name
             ip := ip
             port := port
             status := PStatus.disconnected
             lastUsed := now }],
   newId)

end WifiLegacy

namespace Unified

/-- JS Math.round on a non-negative rational: floor of q + one half. -/
def jsRound (q : ℚ) : ℤ := ⌊q + 1 / 2⌋

/-- The per-manager average reported by getMetrics of both
wifi-printer-manager.js lines 424 to 440 and part_000 lines 688 to 704:
the arithmetic mean of the recorded list (0 when empty) passed through
Math.round. -/
def managerAvg (times : List Nat) : ℤ :=
  jsRound (if times.length = 0 then 0 else (times.sum : ℚ) / times.length)

/-- JS logical-or on numbers: the first operand unless it is falsy (0). -/
def jsOr (a b : ℚ) : ℚ := if a = 0 then b else a

/-- The fleet-level total average of
src/static/js/unified-printer-manager.js lines 92 to 93.  The source text
is (bluetoothMetrics.avg || 0 + wifiMetrics.avg || 0) / 2; since + binds
tighter than ||, JS parses it as ((btAvg || (0 + wifiAvg)) || 0) / 2. -/
def totalAvgTime (btAvg wifiAvg : ℚ) : ℚ :=
  jsOr (jsOr btAvg (0 + wifiAvg)) 0 / 2

end Unified

/-! Concrete fixtures used by counterexamples and witnesses. -/

/-- A connected Bluetooth printer record holding live handles. -/
def p0 : Printer :=
  ⟨"ble_1", "POS-1", "dev-1", true, true, true, PStatus.connected, 0, 0, 0, true⟩

/-- A disconnected Bluetooth printer record with no handles. -/
def pD : Printer :=
  ⟨"ble_2", "POS-2", "dev-2", false, false, false, PStatus.disconnected, 0, 0, 1, true⟩

/-- Connected printer a of a two-printer fleet. -/
def pA : Printer :=
  ⟨"a", "Alpha", "dev-a", true, true, true, PStatus.connected, 0, 0, 0, true⟩

/-- Connected printer b of a two-printer fleet. -/
def pB : Printer :=
  ⟨"b", "Beta", "dev-b", true, true, true, PStatus.connected, 0, 0, 0, true⟩

/-- A transport on which printer a fails and every other printer succeeds. -/
def sendW : Printer → Except String Bool :=
  fun q => if q.id == "a" then Except.error "write failed" else Except.ok true

/-- Reconnection environment: getDevices supported but no paired device
matches, and the opened picker is cancelled by the user. -/
def envNoPair : Enhanced.ReconnectEnv := ⟨true, some [], some none, true, 99⟩

/-- Reconnection environment: getDevices supported and a matching paired
device is already gatt-connected. -/
def envPaired : Enhanced.ReconnectEnv :=
  ⟨true, some [⟨"dev-1", "POS-1", true⟩], some none, true, 99⟩

/-- A registered WiFi printer at 10.0.0.7:9100. -/
def wA : WPrinter := ⟨"wifi_1", "Kitchen", "10.0.0.7", 9100, PStatus.disconnected, 0⟩

/-- A WiFi registry holding just wA. -/
def regW : List WPrinter := [wA]

/-- A persisted WiFi snapshot entry whose stored status is connected. -/
def savedWifiConnected : Wifi.SavedWifiConn :=
  ⟨"wifi_1", "Kitchen", "10.0.0.7", 9100, some PStatus.connected, 5⟩

/-- A cross-context connected message for the device of pD. -/
def msgC : Enhanced.BMsg :=
  ⟨Enhanced.BMsgType.connected, "ble_9", "POS-2b", "dev-2", PStatus.connected, 42, 43⟩

end POSPrinter

namespace POSPrinter

/-! General lemmas about the registry primitives. -/

theorem updateFirst_map (pred : α → Bool) (f : α → α) (g : α → β)
    (hg : ∀ a, g (f a) = g a) :
    ∀ l : List α, (updateFirst pred f l).map g = l.map g := by
  intro l
  induction l with
  | nil => rfl
  | cons x xs ih =>
    rw [updateFirst]
    by_cases h : pred x
    · rw [if_pos h]
      simp [hg]
    · rw [if_neg h]
      simp [ih]

theorem updateFirst_length (pred : α → Bool) (f : α → α) :
    ∀ l : List α, (updateFirst pred f l).length = l.length := by
  intro l
  induction l with
  | nil => rfl
  | cons x xs ih =>
    rw [updateFirst]
    by_cases h : pred x
    · rw [if_pos h]
      simp
    · rw [if_neg h]
      simp [ih]

theorem find?_updateFirst (pred : α → Bool) (f : α → α)
    (hf : ∀ a, pred (f a) = pred a) :
    ∀ l : List α, (updateFirst pred f l).find? pred = (l.find? pred).map f := by
  intro l
  induction l with
  | nil => rfl
  | cons x xs ih =>
    rw [updateFirst]
    by_cases h : pred x
    · rw [if_pos h]
      rw [List.find?_cons_of_pos _ ((hf x).trans h), List.find?_cons_of_pos _ h]
      rfl
    · rw [if_neg h]
      rw [List.find?_cons_of_neg _ h, List.find?_cons_of_neg _ h]
      exact ih

theorem updateFirst_eq_self (pred : α → Bool) (f : α → α) :
    ∀ l : List α, l.find? pred = none → updateFirst pred f l = l := by
  intro l
  induction l with
  | nil => intro _; rfl
  | cons x xs ih =>
    intro h
    rw [List.find?_cons] at h
    rw [updateFirst]
    by_cases hx : pred x
    · rw [hx] at h
      exact absurd h (by simp)
    · rw [if_neg hx]
      rw [eq_false_of_ne_true hx] at h
      rw [ih h]

theorem eraseFirst_length (pred : α → Bool) :
    ∀ (l : List α) (p : α), l.find? pred = some p →
      (eraseFirst pred l).length + 1 = l.length := by
  intro l
  induction l with
  | nil => intro p h; simp at h
  | cons x xs ih =>
    intro p h
    rw [eraseFirst]
    by_cases hx : pred x
    · rw [if_pos hx]
      rfl
    · rw [if_neg hx]
      rw [List.find?_cons_of_neg _ hx] at h
      simp only [List.length_cons]
      rw [← ih p h]

theorem findById_of_mem (reg : List Printer)
    (hnodup : (reg.map Printer.id).Nodup) (p : Printer) (hp : p ∈ reg) :
    findById reg p.id = some p := by
  induction reg with
  | nil => simp at hp
  | cons x xs ih =>
    rw [List.map_cons, List.nodup_cons] at hnodup
    rcases List.mem_cons.mp hp with h | h
    · subst h
      rw [findById, List.find?_cons_of_pos _ (by simp)]
    · have hne : x.id ≠ p.id := by
        intro he
        exact hnodup.1 (he ▸ List.mem_map_of_mem Printer.id h)
      rw [findById, List.find?_cons_of_neg _ (by simp [hne])]
      exact ih hnodup.2 h

theorem sendPrintChunks_getElem? (C : Nat) (hC : 0 < C) (k : Nat) :
    ∀ L i : Nat, (sendPrintChunks C hC L i)[k]? =
      if i + k * C < L then
        some ⟨i + k * C, min C (L - (i + k * C)), decide (i + k * C + C < L)⟩
      else none := by
  induction k with
  | zero =>
    intro L i
    rw [sendPrintChunks]
    simp only [Nat.zero_mul, Nat.add_zero]
    split
    · simp
    · simp
  | succ k ih =>
    intro L i
    rw [sendPrintChunks]
    split
    · rename_i h
      simp only [List.getElem?_cons_succ]
      rw [ih L (i + C)]
      have harith : i + C + k * C = i + (k + 1) * C := by ring
      rw [harith]
    · rename_i h
      simp only [List.getElem?_nil]
      rw [if_neg (by nlinarith [Nat.zero_le (k * C)])]

theorem sendDataInChunks_getElem? (k : Nat) :
    ∀ L i : Nat, (sendDataInChunks L i)[k]? =
      if i + k * 20 < L then
        some ⟨i + k * 20, min 20 (L - (i + k * 20)), true⟩
      else none := by
  induction k with
  | zero =>
    intro L i
    rw [sendDataInChunks]
    simp only [Nat.zero_mul, Nat.add_zero]
    split
    · simp
    · simp
  | succ k ih =>
    intro L i
    rw [sendDataInChunks]
    split
    · rename_i h
      simp only [List.getElem?_cons_succ]
      rw [ih L (i + 20)]
      have harith : i + 20 + k * 20 = i + (k + 1) * 20 := by ring
      rw [harith]
    · rename_i h
      simp only [List.getElem?_nil]
      rw [if_neg (by omega)]

/-- Ceiling-division step used by the chunk-count proofs. -/
theorem ceil_div_step (C m : Nat) (hC : 0 < C) (hm : 0 < m) :
    (m - C + C - 1) / C + 1 = (m + C - 1) / C := by
  rcases Nat.lt_or_ge C m with h | h
  · have h1 : m - C + C - 1 = m - 1 := by omega
    have h2 : m + C - 1 = (m - 1) + C := by omega
    rw [h1, h2, Nat.add_div_right _ hC]
  · have h1 : m - C + C - 1 = C - 1 := by omega
    rw [h1, Nat.div_eq_of_lt (by omega : C - 1 < C)]
    have h3 : m + C - 1 = (m - 1) + C := by omega
    rw [h3, Nat.add_div_right _ hC, Nat.div_eq_of_lt (by omega : m - 1 < C)]

theorem sendPrintChunks_length_aux (C : Nat) (hC : 0 < C) :
    ∀ n L i : Nat, L - i ≤ n →
      (sendPrintChunks C hC L i).length = (L - i + C - 1) / C := by
  intro n
  induction n with
  | zero =>
    intro L i h
    rw [sendPrintChunks]
    rw [dif_neg (by omega)]
    have : L - i + C - 1 = C - 1 := by omega
    rw [this, Nat.div_eq_of_lt (by omega)]
    rfl
  | succ n ih =>
    intro L i h
    rw [sendPrintChunks]
    split
    · rename_i hlt
      simp only [List.length_cons]
      rw [ih L (i + C) (by omega)]
      have h1 : L - (i + C) = L - i - C := by omega
      rw [h1]
      exact ceil_div_step C (L - i) hC (by omega)
    · rename_i hge
      have : L - i + C - 1 = C - 1 := by omega
      rw [this, Nat.div_eq_of_lt (by omega)]
      rfl

theorem sendPrintChunks_length (C : Nat) (hC : 0 < C) (L : Nat) :
    (sendPrintChunks C hC L 0).length = (L + C - 1) / C := by
  have := sendPrintChunks_length_aux C hC L L 0 (by omega)
  simpa using this

theorem sendDataInChunks_length_aux :
    ∀ n L i : Nat, L - i ≤ n →
      (sendDataInChunks L i).length = (L - i + 20 - 1) / 20 := by
  intro n
  induction n with
  | zero =>
    intro L i h
    rw [sendDataInChunks]
    rw [dif_neg (by omega)]
    have : L - i + 20 - 1 = 19 := by omega
    rw [this, Nat.div_eq_of_lt (by omega)]
    rfl
  | succ n ih =>
    intro L i h
    rw [sendDataInChunks]
    split
    · rename_i hlt
      simp only [List.length_cons]
      rw [ih L (i + 20) (by omega)]
      have h1 : L - (i + 20) = L - i - 20 := by omega
      rw [h1]
      exact ceil_div_step 20 (L - i) (by omega) (by omega)
    · rename_i hge
      have : L - i + 20 - 1 = 19 := by omega
      rw [this, Nat.div_eq_of_lt (by omega)]
      rfl

theorem sendDataInChunks_length (L : Nat) :
    (sendDataInChunks L 0).length = (L + 20 - 1) / 20 := by
  have := sendDataInChunks_length_aux L L 0 (by omega)
  simpa using this

end POSPrinter

namespace POSPrinter

/-! Claim C5: load-time status seeding. -/

/-- C5 counterexample: loading a WiFi snapshot whose stored status is
connected yields a record whose status is connected, not Disconnected, so
persisted status is preserved by the WiFi manager rather than discarded. -/
theorem claim_C5_counterexample :
    (Wifi.loadPersistedConnections [savedWifiConnected]).map WPrinter.status
      = [PStatus.connected] ∧
    PStatus.connected ≠ PStatus.disconnected := by
  exact ⟨rfl, by decide⟩

/-- C5 (amended): the Bluetooth managers (Enhanced, part_000, and Separate,
separate-bluetooth-manager.js) seed every loaded record into Disconnected
status with no handles, regardless of what was persisted; the WiFi manager
(wifi-printer-manager.js) instead preserves the persisted status,
defaulting to Disconnected only when the snapshot carries no status. -/
theorem claim_C5_amended (bs : List SavedBtConn) (ws : List Wifi.SavedWifiConn) :
    ((Enhanced.loadPersistedConnections bs).map Printer.status
      = bs.map fun _ => PStatus.disconnected) ∧
    ((Enhanced.loadPersistedConnections bs).map (fun p => (p.hasDevice, p.hasServer))
      = bs.map fun _ => (false, false)) ∧
    ((SepBt.loadPersistedConnections bs).map Printer.status
      = bs.map fun _ => PStatus.disconnected) ∧
    ((Wifi.loadPersistedConnections ws).map WPrinter.status
      = ws.map fun c => c.status.getD PStatus.disconnected) := by
  refine ⟨?_, ?_, ?_, ?_⟩
  · rw [Enhanced.loadPersistedConnections, List.map_map]
    exact rfl
  · rw [Enhanced.loadPersistedConnections, List.map_map]
    exact rfl
  · rw [SepBt.loadPersistedConnections, List.map_map]
    exact rfl
  · rw [Wifi.loadPersistedConnections, List.map_map]
    exact rfl

/-! Claim C6: idempotent registration by address. -/

/-- C6 counterexample: the addPrinter of src/unnamed/part_002 performs no
address lookup, so adding a printer at an address that already exists
creates a second record with the same (ip, port). -/
theorem claim_C6_counterexample :
    ¬ Wifi.NoDupAddr
      (WifiLegacy.addPrinter regW "wifi_2" 3 "Kitchen" "10.0.0.7" 9100).1 := by
  decide

/-- C6 (amended): in the deduplicating WiFi manager
(wifi-printer-manager.js), adding a printer whose (ip, port) already exists
updates the existing record in place and returns its id, preserving the
registry size and its address multiset, and registration preserves the
no-duplicate-address invariant; the legacy variant in src/unnamed/part_002
always appends a fresh record, so duplicates can arise there. -/
theorem claim_C6_amended (reg : List WPrinter) (newId : String) (now : Nat)
    (name ip : String) (port : Nat) :
    (∀ existing, Wifi.findPrinterByAddress reg ip port = some existing →
      (Wifi.addPrinter reg newId now name ip port).2 = existing.id ∧
      (Wifi.addPrinter reg newId now name ip port).1.length = reg.length ∧
      (Wifi.addPrinter reg newId now name ip port).1.map Wifi.addrKey
        = reg.map Wifi.addrKey) ∧
    (Wifi.NoDupAddr reg → Wifi.NoDupAddr (Wifi.addPrinter reg newId now name ip port).1) := by
  constructor
  · intro existing hex
    simp only [Wifi.addPrinter, hex]
    refine ⟨trivial, ?_, ?_⟩
    · exact updateFirst_length _ _ reg
    · exact updateFirst_map (fun p => p.ip == ip && p.port == port)
        (fun p => { p with name := name, lastUsed := now })
        Wifi.addrKey (fun a => rfl) reg
  · intro hnd
    cases hex : Wifi.findPrinterByAddress reg ip port with
    | some existing =>
      have hmap : (updateFirst (fun p => p.ip == ip && p.port == port)
          (fun p => { p with name := name, lastUsed := now }) reg).map Wifi.addrKey
          = reg.map Wifi.addrKey :=
        updateFirst_map (fun p => p.ip == ip && p.port == port)
          (fun p => { p with name := name, lastUsed := now })
          Wifi.addrKey (fun a => rfl) reg
      simp only [Wifi.addPrinter, hex]
      unfold Wifi.NoDupAddr
      rw [hmap]
      exact hnd
    | none =>
      have hnotmem : (ip, port) ∉ reg.map Wifi.addrKey := by
        intro hmem
        obtain ⟨q, hq, hkey⟩ := List.mem_map.mp hmem
        have := List.find?_eq_none.mp hex q hq
        rw [Wifi.addrKey] at hkey
        have h1 : q.ip = ip := congrArg Prod.fst hkey
        have h2 : q.port = port := congrArg Prod.snd hkey
        simp [h1, h2] at this
      simp only [Wifi.addPrinter, hex]
      unfold Wifi.NoDupAddr
      rw [List.map_append, List.nodup_append]
      refine ⟨hnd, by simp, ?_⟩
      intro a ha hb
      simp only [List.map_cons, List.map_nil, List.mem_singleton] at hb
      rw [hb] at ha
      exact hnotmem ha

/-- C6 witness: the amended theorem applied to a registry already holding a
printer at 10.0.0.7:9100. -/
theorem claim_C6_witness :
    Wifi.findPrinterByAddress regW "10.0.0.7" 9100 = some wA ∧
    (Wifi.addPrinter regW "wifi_2" 7 "Front" "10.0.0.7" 9100).2 = wA.id ∧
    Wifi.NoDupAddr regW ∧
    Wifi.NoDupAddr (Wifi.addPrinter regW "wifi_2" 7 "Front" "10.0.0.7" 9100).1 := by
  refine ⟨by decide, ?_, by decide, ?_⟩
  · exact ((claim_C6_amended regW "wifi_2" 7 "Front" "10.0.0.7" 9100).1
      wA (by decide)).1
  · exact (claim_C6_amended regW "wifi_2" 7 "Front" "10.0.0.7" 9100).2 (by decide)

/-! Claim C7: printOne preconditions and failure mode. -/

/-- C7 counterexample: in the Separate Bluetooth manager an unknown printer
id fails with Printer not found, not with the NotConnected error (Printer
not connected) that the claim prescribes for that case. -/
theorem claim_C7_counterexample :
    SepBt.printToBluetoothPrinter [] "ble_x" (fun _ => Except.ok ())
      = Except.error "Printer not found" ∧
    (Except.error "Printer not found" : Except String Bool)
      ≠ Except.error "Printer not connected" := by
  refine ⟨rfl, fun hcontra => ?_⟩
  exact absurd (Except.error.inj hcontra) (by decide)

/-- C7 (amended): printOne succeeds only when the record exists with status
Connected (the live-handle check happens inside the transport send); when
the status is not Connected every manager fails with Printer not connected;
an unknown id fails with Printer not connected in the Enhanced and WiFi
managers but with Printer not found in the Separate Bluetooth manager.  In
every failure case the result is a fixed error independent of the send
function, so nothing is written to the transport. -/
theorem claim_C7_amended :
    (∀ (reg : List Printer) (pid : String) (send : Printer → Except String Bool),
      findById reg pid = none →
      Enhanced.printToPrinter reg pid send = Except.error "Printer not connected") ∧
    (∀ (reg : List Printer) (pid : String) (send : Printer → Except String Bool) p,
      findById reg pid = some p → p.status ≠ PStatus.connected →
      Enhanced.printToPrinter reg pid send = Except.error "Printer not connected") ∧
    (∀ (reg : List Printer) (pid : String) (send : Printer → Except String Bool) b,
      Enhanced.printToPrinter reg pid send = Except.ok b →
      ∃ p, findById reg pid = some p ∧ p.status = PStatus.connected ∧
        send p = Except.ok b) ∧
    (∀ (reg : List Printer) (pid : String) (send : Printer → Except String Unit),
      findById reg pid = none →
      SepBt.printToBluetoothPrinter reg pid send = Except.error "Printer not found") ∧
    (∀ (reg : List Printer) (pid : String) (send : Printer → Except String Unit) p,
      findById reg pid = some p → p.status ≠ PStatus.connected →
      SepBt.printToBluetoothPrinter reg pid send = Except.error "Printer not connected") ∧
    (∀ (reg : List WPrinter) (pid : String) (send : WPrinter → Except String Bool),
      reg.find? (fun q => q.id == pid) = none →
      Wifi.printToPrinter reg pid send = Except.error "Printer not connected") ∧
    (∀ (reg : List WPrinter) (pid : String) (send : WPrinter → Except String Bool) p,
      reg.find? (fun q => q.id == pid) = some p → p.status ≠ PStatus.connected →
      Wifi.printToPrinter reg pid send = Except.error "Printer not connected") := by
  refine ⟨?_, ?_, ?_, ?_, ?_, ?_, ?_⟩
  · intro reg pid send h
    simp only [Enhanced.printToPrinter, h]
  · intro reg pid send p h hs
    simp only [Enhanced.printToPrinter, h]
    rw [if_neg (by simpa using hs)]
  · intro reg pid send b h
    cases hf : findById reg pid with
    | none =>
      simp only [Enhanced.printToPrinter, hf] at h
      exact absurd h (by simp)
    | some p =>
      simp only [Enhanced.printToPrinter, hf] at h
      by_cases hs : (p.status == PStatus.connected) = true
      · rw [if_pos hs] at h
        exact ⟨p, rfl, by simpa using hs, h⟩
      · rw [if_neg hs] at h
        exact absurd h (by simp)
  · intro reg pid send h
    simp only [SepBt.printToBluetoothPrinter, h]
  · intro reg pid send p h hs
    simp only [SepBt.printToBluetoothPrinter, h]
    rw [if_neg (by simpa using hs)]
  · intro reg pid send h
    simp only [Wifi.printToPrinter, h]
  · intro reg pid send p h hs
    simp only [Wifi.printToPrinter, h]
    rw [if_neg (by simpa using hs)]

/-- C7 witness: the amended theorem applied to the empty registry. -/
theorem claim_C7_witness :
    findById [] "ble_x" = none ∧
    SepBt.printToBluetoothPrinter [] "ble_x" (fun _ => Except.ok ())
      = Except.error "Printer not found" :=
  ⟨rfl, claim_C7_amended.2.2.2.1 [] "ble_x" (fun _ => Except.ok ()) rfl⟩

/-! Claim C9: metrics averages. -/

/-- C9: the per-manager averages are indeed the rounded arithmetic mean (0
when the list is empty), but the fleet-level unified total is not the mean
of the two manager averages: in total.avgConnectionTime the expression
btAvg or 0 + wifiAvg or 0, all over 2, parses as ((btAvg or (0 + wifiAvg))
or 0) / 2 because + binds tighter than or-or, so with btAvg = 100 and
wifiAvg = 200 the code reports 50 where the spec requires 150. -/
theorem claim_C9_bug :
    Unified.managerAvg [] = 0 ∧
    Unified.managerAvg [3, 4] = 4 ∧
    Unified.totalAvgTime 100 200 = 50 ∧
    ((100 : ℚ) + 200) / 2 = 150 ∧
    Unified.totalAvgTime 100 200 ≠ ((100 : ℚ) + 200) / 2 := by
  refine ⟨?_, ?_, ?_, by norm_num, ?_⟩
  · rw [Unified.managerAvg, Unified.jsRound]
    norm_num
  · rw [Unified.managerAvg, Unified.jsRound]
    norm_num
  · rw [Unified.totalAvgTime, Unified.jsOr, Unified.jsOr]
    norm_num
  · rw [Unified.totalAvgTime, Unified.jsOr, Unified.jsOr]
    norm_num


/-! Claim C2: chunked print writes. -/

theorem sendPrintChunks_elem (C : Nat) (hC : 0 < C) (L k : Nat) (a : ChunkWrite)
    (h : (sendPrintChunks C hC L 0)[k]? = some a) :
    k * C < L ∧ a = ⟨k * C, min C (L - k * C), decide (k * C + C < L)⟩ := by
  rw [sendPrintChunks_getElem? C hC k L 0] at h
  simp only [Nat.zero_add] at h
  split at h
  · rename_i hcond
    exact ⟨hcond, (Option.some_inj.mp h).symm⟩
  · exact absurd h (by simp)

theorem sendDataInChunks_elem (L k : Nat) (a : ChunkWrite)
    (h : (sendDataInChunks L 0)[k]? = some a) :
    k * 20 < L ∧ a = ⟨k * 20, min 20 (L - k * 20), true⟩ := by
  rw [sendDataInChunks_getElem? k L 0] at h
  simp only [Nat.zero_add] at h
  split at h
  · rename_i hcond
    exact ⟨hcond, (Option.some_inj.mp h).symm⟩
  · exact absurd h (by simp)

/-- C2 counterexample: the Separate Bluetooth manager sendDataInChunks on a
single-chunk payload of 20 bytes awaits the pacing delay after the final
(and only) chunk, contradicting the no-delay-after-the-last-chunk clause. -/
theorem claim_C2_counterexample :
    sendDataInChunks 20 0 = [⟨0, 20, true⟩] ∧
    (⟨0, 20, true⟩ : ChunkWrite).delayAfter ≠ false := by
  constructor
  · rw [sendDataInChunks]
    rw [dif_pos (by norm_num : (0 : Nat) < 20)]
    rw [sendDataInChunks]
    rw [dif_neg (by norm_num : ¬ ((20 : Nat) < 20))]
    norm_num
  · simp

/-- C2 (amended): for every payload length L and chunk size C greater than
0, both chunking loops issue exactly ceil(L/C) chunk writes (with C fixed
at 20 in sendDataInChunks) in strictly increasing offset order, each chunk
non-empty and no larger than C; sendPrintData awaits the pacing delay after
a chunk exactly when another chunk follows (so never after the final one),
while sendDataInChunks awaits the delay after every chunk, including the
final one. -/
theorem claim_C2_amended (C L : Nat) (hC : 0 < C) :
    ((sendPrintChunks C hC L 0).length = (L + C - 1) / C) ∧
    (∀ (j k : Nat) (a b : ChunkWrite), j < k → (sendPrintChunks C hC L 0)[j]? = some a →
      (sendPrintChunks C hC L 0)[k]? = some b → a.offset < b.offset) ∧
    (∀ (k : Nat) (a : ChunkWrite), (sendPrintChunks C hC L 0)[k]? = some a →
      0 < a.bytes ∧ a.bytes ≤ C) ∧
    (∀ (k : Nat) (a : ChunkWrite), (sendPrintChunks C hC L 0)[k]? = some a →
      (a.delayAfter = true ↔ k + 1 < (sendPrintChunks C hC L 0).length)) ∧
    ((sendDataInChunks L 0).length = (L + 20 - 1) / 20) ∧
    (∀ (j k : Nat) (a b : ChunkWrite), j < k → (sendDataInChunks L 0)[j]? = some a →
      (sendDataInChunks L 0)[k]? = some b → a.offset < b.offset) ∧
    (∀ (k : Nat) (a : ChunkWrite), (sendDataInChunks L 0)[k]? = some a →
      0 < a.bytes ∧ a.bytes ≤ 20) ∧
    (∀ (k : Nat) (a : ChunkWrite), (sendDataInChunks L 0)[k]? = some a →
      a.delayAfter = true) := by
  refine ⟨sendPrintChunks_length C hC L, ?_, ?_, ?_,
    sendDataInChunks_length L, ?_, ?_, ?_⟩
  · intro j k a b hjk hja hkb
    obtain ⟨hj, rfl⟩ := sendPrintChunks_elem C hC L j a hja
    obtain ⟨hk, rfl⟩ := sendPrintChunks_elem C hC L k b hkb
    exact Nat.mul_lt_mul_of_lt_of_le hjk (Nat.le_refl C) hC
  · intro k a h
    obtain ⟨hk, rfl⟩ := sendPrintChunks_elem C hC L k a h
    constructor
    · show 0 < min C (L - k * C)
      omega
    · show min C (L - k * C) ≤ C
      omega
  · intro k a h
    obtain ⟨hk, rfl⟩ := sendPrintChunks_elem C hC L k a h
    show decide (k * C + C < L) = true ↔ k + 1 < (sendPrintChunks C hC L 0).length
    rw [decide_eq_true_iff]
    have hnext := sendPrintChunks_getElem? C hC (k + 1) L 0
    simp only [Nat.zero_add] at hnext
    constructor
    · intro hd
      by_contra hlen
      push_neg at hlen
      have hnone : (sendPrintChunks C hC L 0)[k + 1]? = none :=
        List.getElem?_eq_none hlen
      rw [hnext, if_pos (by rw [Nat.succ_mul]; omega)] at hnone
      exact absurd hnone (by simp)
    · intro hlt
      by_cases hcc : (k + 1) * C < L
      · rw [Nat.succ_mul] at hcc
        omega
      · have hnone : (sendPrintChunks C hC L 0)[k + 1]? = none := by
          rw [hnext, if_neg hcc]
        rw [List.getElem?_eq_none_iff] at hnone
        omega
  · intro j k a b hjk hja hkb
    obtain ⟨hj, rfl⟩ := sendDataInChunks_elem L j a hja
    obtain ⟨hk, rfl⟩ := sendDataInChunks_elem L k b hkb
    exact Nat.mul_lt_mul_of_lt_of_le hjk (Nat.le_refl 20) (by norm_num)
  · intro k a h
    obtain ⟨hk, rfl⟩ := sendDataInChunks_elem L k a h
    constructor
    · show 0 < min 20 (L - k * 20)
      omega
    · show min 20 (L - k * 20) ≤ 20
      omega
  · intro k a h
    obtain ⟨hk, rfl⟩ := sendDataInChunks_elem L k a h
    rfl

/-- C2 witness: the amended theorem instantiated at the spec scenario of a
500-byte payload with chunk size 244, which yields 3 chunk writes. -/
theorem claim_C2_witness :
    0 < 244 ∧ (sendPrintChunks 244 (by norm_num) 500 0).length = 3 := by
  refine ⟨by norm_num, ?_⟩
  have h := (claim_C2_amended 244 500 (by norm_num)).1
  norm_num at h
  exact h

/-! Claim C1: link-drop persistence ordering. -/

/-- C1 counterexample: on a link drop of a shared printer with getDevices
support, the Enhanced manager performs exactly one persistence write, but
the automatic reconnection attempt begins at trace index 1 while the
persistence write only happens at trace index 3, so no persistence write
precedes the reconnection attempt. -/
theorem claim_C1_counterexample :
    ((Enhanced.handleDisconnection true [p0] "ble_1").2.countP Enhanced.isPersist = 1) ∧
    ((Enhanced.handleDisconnection true [p0] "ble_1").2.findIdx
      Enhanced.isReconnectBegin = 1) ∧
    ((Enhanced.handleDisconnection true [p0] "ble_1").2.findIdx
      Enhanced.isPersist = 3) := by
  decide

/-- C1 (amended): delivery of a link-drop notification for an existing
record results in exactly one persistence write of the Registry snapshot,
taken after the record status has been set to Disconnected in memory; but
whenever an automatic reconnection attempt is triggered it begins before
that persistence write, not after it (and the persisted snapshot carries no
status field at all, by the shape of SavedBtConn). -/
theorem claim_C1_amended (sup : Bool) (reg : List Printer) (pid : String)
    (p : Printer) (hp : findById reg pid = some p) :
    ((Enhanced.handleDisconnection sup reg pid).2.countP Enhanced.isPersist = 1) ∧
    (Enhanced.BtEvent.persistWrite
        (savePersistedConnections (Enhanced.handleDisconnection sup reg pid).1)
      ∈ (Enhanced.handleDisconnection sup reg pid).2) ∧
    ((findById (Enhanced.handleDisconnection sup reg pid).1 pid).map Printer.status
      = some PStatus.disconnected) ∧
    (∀ (i j : Nat), (Enhanced.handleDisconnection sup reg pid).2[i]?
        = some Enhanced.BtEvent.reconnectBegin →
      ((Enhanced.handleDisconnection sup reg pid).2[j]?).map Enhanced.isPersist
        = some true → i < j) := by
  have hfind : findById
      (updateFirst (fun q => q.id == pid)
        (fun q => { q with
                    status := PStatus.disconnected
                    hasDevice := false
                    hasServer := false
                    deviceGattConnected := false
                    connectionAttempts := q.connectionAttempts + 1 }) reg) pid
      = some { p with
               status := PStatus.disconnected
               hasDevice := false
               hasServer := false
               deviceGattConnected := false
               connectionAttempts := p.connectionAttempts + 1 } := by
    rw [findById, find?_updateFirst (fun q => q.id == pid)
      (fun q => { q with
                  status := PStatus.disconnected
                  hasDevice := false
                  hasServer := false
                  deviceGattConnected := false
                  connectionAttempts := q.connectionAttempts + 1 })
      (fun a => rfl) reg]
    rw [← findById, hp]
    rfl
  simp only [Enhanced.handleDisconnection, hp]
  by_cases hc : (sup && p.shared) = true
  · rw [if_pos hc]
    refine ⟨?_, ?_, ?_, ?_⟩
    · simp [Enhanced.isPersist, List.countP_cons]
    · simp
    · rw [hfind]
      rfl
    · intro i j hi hj
      simp only [List.cons_append, List.nil_append] at hi hj
      rcases i with _ | _ | _ | _ | i <;> rcases j with _ | _ | _ | _ | j <;>
        simp_all [Enhanced.isPersist]
  · rw [if_neg hc]
    refine ⟨?_, ?_, ?_, ?_⟩
    · simp [Enhanced.isPersist, List.countP_cons]
    · simp
    · rw [hfind]
      rfl
    · intro i j hi hj
      simp only [List.cons_append, List.nil_append] at hi hj
      rcases i with _ | _ | _ | i <;> rcases j with _ | _ | _ | j <;>
        simp_all [Enhanced.isPersist]

/-- C1 witness: the amended theorem applied to a singleton registry with
automatic reconnection not triggered. -/
theorem claim_C1_witness :
    findById [p0] "ble_1" = some p0 ∧
    ((Enhanced.handleDisconnection false [p0] "ble_1").2.countP
      Enhanced.isPersist = 1) :=
  ⟨by decide, (claim_C1_amended false [p0] "ble_1" p0 (by decide)).1⟩

/-! Claim C3: printAll fan-out and fault isolation. -/

/-- C3: with at least one connected printer, printToAllPrinters returns ok
with exactly one result per connected record, each result produced from
that printer record and its own transport outcome alone (so one printer
failing yields success false with its error in its own slot and cannot
affect any other slot), and the operation fails precisely when there are
zero connected printers. -/
theorem claim_C3 (reg : List Printer) (send : Printer → Except String Bool)
    (hnodup : (reg.map Printer.id).Nodup) :
    (1 ≤ (Enhanced.getConnectedPrinters reg).length →
      Enhanced.printToAllPrinters reg send =
        Except.ok ((Enhanced.getConnectedPrinters reg).map
          (fun p => Enhanced.toPrintResult p.id (send p)))) ∧
    (Enhanced.printToAllPrinters reg send = Except.error "No printers connected"
      ↔ Enhanced.getConnectedPrinters reg = []) := by
  have hkey : ∀ p ∈ Enhanced.getConnectedPrinters reg,
      Enhanced.printToPrinter reg p.id send = send p := by
    intro p hp
    have hmem : p ∈ reg := List.mem_of_mem_filter hp
    have hcond := List.of_mem_filter hp
    simp only [Bool.and_eq_true] at hcond
    have hfind : findById reg p.id = some p := findById_of_mem reg hnodup p hmem
    simp only [Enhanced.printToPrinter, hfind]
    rw [if_pos hcond.1.1]
  constructor
  · intro hpos
    simp only [Enhanced.printToAllPrinters]
    rw [if_neg (by omega)]
    congr 1
    apply List.map_congr_left
    intro p hp
    rw [hkey p hp]
  · constructor
    · intro herr
      by_contra hne
      have hlen : ¬ (Enhanced.getConnectedPrinters reg).length = 0 := by
        simpa [List.length_eq_zero] using hne
      simp only [Enhanced.printToAllPrinters] at herr
      rw [if_neg hlen] at herr
      exact absurd herr (by simp)
    · intro hnil
      simp only [Enhanced.printToAllPrinters]
      rw [if_pos (by rw [hnil]; rfl)]

/-- C3 witness: a two-printer fleet where printer a fails and printer b
succeeds, via the theorem applied at that fleet. -/
theorem claim_C3_witness :
    ([pA, pB].map Printer.id).Nodup ∧
    1 ≤ (Enhanced.getConnectedPrinters [pA, pB]).length ∧
    Enhanced.printToAllPrinters [pA, pB] sendW =
      Except.ok ((Enhanced.getConnectedPrinters [pA, pB]).map
        (fun p => Enhanced.toPrintResult p.id (sendW p))) :=
  ⟨by decide, by decide, (claim_C3 [pA, pB] sendW (by decide)).1 (by decide)⟩


/-! Claim C4: silent re-acquisition before any picker. -/

theorem finishReconnection_acts (env : Enhanced.ReconnectEnv) (reg : List Printer)
    (pid : String) (p : Printer) (dev : Option Enhanced.BDevice)
    (acts : List Enhanced.RAction) :
    (Enhanced.finishReconnection env reg pid p dev acts).2.1 = acts ∨
    (Enhanced.finishReconnection env reg pid p dev acts).2.1
      = acts ++ [Enhanced.RAction.gattConnect] := by
  cases dev with
  | none => left; rfl
  | some d =>
    simp only [Enhanced.finishReconnection]
    by_cases h1 : Enhanced.deviceMatches p d = true
    · rw [if_pos h1]
      by_cases h2 : d.gattConnected = true
      · rw [if_pos h2]
        left; rfl
      · rw [if_neg h2]
        by_cases h3 : env.gattConnectOk = true
        · rw [if_pos h3]
          right; rfl
        · rw [if_neg h3]
          right; rfl
    · rw [if_neg h1]
      left; rfl

theorem pickerPhase_acts (env : Enhanced.ReconnectEnv) (reg : List Printer)
    (pid : String) (p : Printer) (acts : List Enhanced.RAction) :
    (Enhanced.pickerPhase env reg pid p acts).2.1 = acts ∨
    (Enhanced.pickerPhase env reg pid p acts).2.1
      = acts ++ [Enhanced.RAction.gattConnect] := by
  cases hpr : env.pickerResult with
  | none =>
    have hred : Enhanced.pickerPhase env reg pid p acts = (false, acts, reg) := by
      simp only [Enhanced.pickerPhase, hpr]
    rw [hred]
    left
    rfl
  | some dev =>
    simp only [Enhanced.pickerPhase, hpr]
    exact finishReconnection_acts env reg pid p dev acts

theorem pickerShown_mem_finish (env : Enhanced.ReconnectEnv) (reg : List Printer)
    (pid : String) (p : Printer) (dev : Option Enhanced.BDevice)
    (acts : List Enhanced.RAction) :
    (Enhanced.RAction.pickerShown ∈ (Enhanced.finishReconnection env reg pid p dev acts).2.1
      ↔ Enhanced.RAction.pickerShown ∈ acts) := by
  rcases finishReconnection_acts env reg pid p dev acts with h | h
  · rw [h]
  · rw [h]
    simp

theorem pickerShown_mem_picker (env : Enhanced.ReconnectEnv) (reg : List Printer)
    (pid : String) (p : Printer) (acts : List Enhanced.RAction) :
    (Enhanced.RAction.pickerShown ∈ (Enhanced.pickerPhase env reg pid p acts).2.1
      ↔ Enhanced.RAction.pickerShown ∈ acts) := by
  rcases pickerPhase_acts env reg pid p acts with h | h
  · rw [h]
  · rw [h]
    simp

theorem head?_finish (env : Enhanced.ReconnectEnv) (reg : List Printer)
    (pid : String) (p : Printer) (dev : Option Enhanced.BDevice)
    (a : Enhanced.RAction) (acts : List Enhanced.RAction) :
    (Enhanced.finishReconnection env reg pid p dev (a :: acts)).2.1.head? = some a := by
  rcases finishReconnection_acts env reg pid p dev (a :: acts) with h | h <;> rw [h] <;> rfl

theorem head?_picker (env : Enhanced.ReconnectEnv) (reg : List Printer)
    (pid : String) (p : Printer) (a : Enhanced.RAction)
    (acts : List Enhanced.RAction) :
    (Enhanced.pickerPhase env reg pid p (a :: acts)).2.1.head? = some a := by
  rcases pickerPhase_acts env reg pid p (a :: acts) with h | h <;> rw [h] <;> rfl

/-- C4 counterexample: a reconnection attempt with showPicker false, where
getDevices is supported but yields no matching paired device, still opens
the user-facing device picker, contradicting the claim that no picker is
ever shown when prompting is not allowed. -/
theorem claim_C4_counterexample :
    Enhanced.RAction.pickerShown ∈
      (Enhanced.attemptReconnection envNoPair [p0] "ble_1" false).2.1 := by
  decide

/-- C4 (amended): for a known printer, a reconnection attempt first tries
silent re-acquisition via the paired-device list exactly when getDevices is
supported and showPicker is false (the first recorded action is then the
silent lookup); however, the user-facing picker is opened precisely when
the silent phase yields no device, which happens whenever showPicker is
true, getDevices is unsupported or throws, or no paired device matches —
whether or not the caller asked for prompting.  Only a successful silent
match suppresses the picker. -/
theorem claim_C4_amended (env : Enhanced.ReconnectEnv) (reg : List Printer)
    (pid : String) (showPicker : Bool) (p : Printer)
    (hp : findById reg pid = some p) :
    ((env.supportsGetDevices = true ∧ showPicker = false) →
      (Enhanced.attemptReconnection env reg pid showPicker).2.1.head?
        = some Enhanced.RAction.silentLookup) ∧
    (Enhanced.RAction.pickerShown
        ∈ (Enhanced.attemptReconnection env reg pid showPicker).2.1
      ↔ Enhanced.silentDevice env p showPicker = none) := by
  simp only [Enhanced.attemptReconnection, hp]
  by_cases hc : (env.supportsGetDevices && !showPicker) = true
  · rw [if_pos hc]
    have hcond : env.supportsGetDevices = true ∧ showPicker = false := by
      constructor
      · exact (Bool.and_eq_true _ _ ▸ hc).1
      · have := (Bool.and_eq_true _ _ ▸ hc).2
        simpa using this
    cases hgd : env.getDevicesResult with
    | some paired =>
      cases hfind : paired.find? (Enhanced.deviceMatches p) with
      | some d =>
        simp only [hfind]
        constructor
        · intro _
          by_cases hg : d.gattConnected = true
          · rw [if_pos hg]
            rfl
          · rw [if_neg hg]
            exact head?_finish env reg pid p (some d)
              Enhanced.RAction.silentLookup []
        · rw [Enhanced.silentDevice, if_pos hc, hgd]
          simp only [Option.some_bind]
          constructor
          · intro hmem
            by_cases hg : d.gattConnected = true
            · rw [if_pos hg] at hmem
              simp at hmem
            · rw [if_neg hg] at hmem
              rw [pickerShown_mem_finish] at hmem
              simp at hmem
          · intro hnone
            rw [hfind] at hnone
            simp at hnone
      | none =>
        simp only [hfind]
        constructor
        · intro _
          exact head?_picker env reg pid p Enhanced.RAction.silentLookup _
        · rw [pickerShown_mem_picker]
          rw [Enhanced.silentDevice, if_pos hc, hgd]
          simp [hfind]
    | none =>
      constructor
      · intro _
        exact head?_picker env reg pid p Enhanced.RAction.silentLookup _
      · rw [pickerShown_mem_picker]
        rw [Enhanced.silentDevice, if_pos hc, hgd]
        simp
  · rw [if_neg hc]
    constructor
    · intro hcond
      rw [hcond.1, hcond.2] at hc
      simp at hc
    · constructor
      · intro _
        rw [Enhanced.silentDevice, if_neg hc]
      · intro _
        rcases pickerPhase_acts env reg pid p
            ([] ++ [Enhanced.RAction.pickerShown]) with h | h <;> rw [h] <;> simp

/-- C4 witness: the amended theorem applied to an environment with a
matching, already connected paired device: the silent lookup runs first and
no picker is shown. -/
theorem claim_C4_witness :
    findById [p0] "ble_1" = some p0 ∧
    (Enhanced.attemptReconnection envPaired [p0] "ble_1" false).2.1.head?
      = some Enhanced.RAction.silentLookup :=
  ⟨by decide,
   (claim_C4_amended envPaired [p0] "ble_1" false p0 (by decide)).1 ⟨rfl, rfl⟩⟩

/-! Claim C8: cross-context message handling. -/

/-- C8: on a connected or reconnected cross-context message, the receiving
context changes no status and claims no device or server handle (the
projection of every record to id, status, hasDevice, hasServer is
untouched), and when the matching local record is Disconnected only its
name, connectedAt and lastUsed take the values carried by the message; on a
disconnected message the matching local record is forced to Disconnected
with both handle references cleared, while ids, names, deviceIds and
timestamps are untouched. -/
theorem claim_C8 (reg : List Printer) (m : Enhanced.BMsg) :
    ((m.type = Enhanced.BMsgType.connected ∨ m.type = Enhanced.BMsgType.reconnected) →
      ((Enhanced.handleBroadcastMessage reg m).map
          (fun p => (p.id, p.status, p.hasDevice, p.hasServer))
        = reg.map (fun p => (p.id, p.status, p.hasDevice, p.hasServer))) ∧
      (∀ p, reg.find? (fun q => q.deviceId == m.deviceId) = some p →
        p.status = PStatus.disconnected →
        (Enhanced.handleBroadcastMessage reg m).find?
            (fun q => q.deviceId == m.deviceId)
          = some { p with
                   name := m.name
                   connectedAt := m.connectedAt
                   lastUsed := m.lastUsed })) ∧
    (m.type = Enhanced.BMsgType.disconnected →
      ((Enhanced.handleBroadcastMessage reg m).map
          (fun p => (p.id, p.name, p.deviceId, p.connectedAt, p.lastUsed))
        = reg.map (fun p => (p.id, p.name, p.deviceId, p.connectedAt, p.lastUsed))) ∧
      (∀ p, reg.find? (fun q => q.deviceId == m.deviceId) = some p →
        (Enhanced.handleBroadcastMessage reg m).find?
            (fun q => q.deviceId == m.deviceId)
          = some { p with
                   status := PStatus.disconnected
                   hasDevice := false
                   hasServer := false
                   deviceGattConnected := false })) := by
  constructor
  · intro htype
    have hcond : (m.type == Enhanced.BMsgType.connected
        || m.type == Enhanced.BMsgType.reconnected) = true := by
      rcases htype with h | h <;> simp [h]
    constructor
    · cases hfind : reg.find? (fun q => q.deviceId == m.deviceId) with
      | none =>
        simp only [Enhanced.handleBroadcastMessage, hcond, if_pos, hfind]
      | some q =>
        simp only [Enhanced.handleBroadcastMessage, hcond, if_pos, hfind]
        by_cases hq : (q.status == PStatus.disconnected) = true
        · rw [if_pos hq]
          exact updateFirst_map (fun r => r.deviceId == m.deviceId)
            (fun r => { r with
                        name := m.name
                        connectedAt := m.connectedAt
                        lastUsed := m.lastUsed })
            (fun p => (p.id, p.status, p.hasDevice, p.hasServer)) (fun a => rfl) reg
        · rw [if_neg hq]
    · intro p hfind hdis
      simp only [Enhanced.handleBroadcastMessage, hcond, if_pos, hfind]
      rw [if_pos (by simp [hdis])]
      rw [find?_updateFirst (fun q => q.deviceId == m.deviceId)
        (fun q => { q with
                    name := m.name
                    connectedAt := m.connectedAt
                    lastUsed := m.lastUsed }) (fun a => rfl) reg]
      rw [hfind]
      rfl
  · intro htype
    have hcond : (m.type == Enhanced.BMsgType.connected
        || m.type == Enhanced.BMsgType.reconnected) = false := by
      simp [htype]
    have hcond2 : (m.type == Enhanced.BMsgType.disconnected) = true := by
      simp [htype]
    constructor
    · cases hfind : reg.find? (fun q => q.deviceId == m.deviceId) with
      | none =>
        simp only [Enhanced.handleBroadcastMessage, hcond, Bool.false_eq_true,
          if_false, hcond2, if_true, hfind]
      | some q =>
        simp only [Enhanced.handleBroadcastMessage, hcond, Bool.false_eq_true,
          if_false, hcond2, if_true, hfind]
        exact updateFirst_map (fun r => r.deviceId == m.deviceId)
          (fun r => { r with
                      status := PStatus.disconnected
                      hasDevice := false
                      hasServer := false
                      deviceGattConnected := false })
          (fun p => (p.id, p.name, p.deviceId, p.connectedAt, p.lastUsed))
          (fun a => rfl) reg
    · intro p hfind
      simp only [Enhanced.handleBroadcastMessage, hcond, Bool.false_eq_true,
        if_false, hcond2, if_true, hfind]
      rw [find?_updateFirst (fun q => q.deviceId == m.deviceId)
        (fun q => { q with
                    status := PStatus.disconnected
                    hasDevice := false
                    hasServer := false
                    deviceGattConnected := false })
        (fun a => rfl) reg]
      rw [hfind]
      rfl

/-- C8 witness: the theorem applied to a connected message arriving at a
context whose matching record is disconnected. -/
theorem claim_C8_witness :
    (msgC.type = Enhanced.BMsgType.connected ∨
      msgC.type = Enhanced.BMsgType.reconnected) ∧
    ((Enhanced.handleBroadcastMessage [pD] msgC).map
        (fun p => (p.id, p.status, p.hasDevice, p.hasServer))
      = [pD].map (fun p => (p.id, p.status, p.hasDevice, p.hasServer))) :=
  ⟨Or.inl rfl, ((claim_C8 [pD] msgC).1 (Or.inl rfl)).1⟩

/-! Claim C10: disconnectPrinter is a no-op once the link has dropped. -/

/-- C10: disconnectPrinter removes the record and persists exactly when the
record exists and still holds a device object; an unknown id, or a record
whose device reference was already cleared, leaves the registry untouched
with no persistence write; in particular, after handleDisconnection has
processed a link drop for an existing record, disconnectPrinter on that id
is a complete no-op, so a dropped printer cannot be forgotten this way. -/
theorem claim_C10 (reg : List Printer) (pid : String) (sup : Bool) :
    (findById reg pid = none →
      Enhanced.disconnectPrinter reg pid = (reg, false)) ∧
    (∀ p, findById reg pid = some p → p.hasDevice = false →
      Enhanced.disconnectPrinter reg pid = (reg, false)) ∧
    (∀ p, findById reg pid = some p → p.hasDevice = true →
      (Enhanced.disconnectPrinter reg pid).2 = true ∧
      (Enhanced.disconnectPrinter reg pid).1.length + 1 = reg.length) ∧
    (∀ p, findById reg pid = some p →
      Enhanced.disconnectPrinter (Enhanced.handleDisconnection sup reg pid).1 pid
        = ((Enhanced.handleDisconnection sup reg pid).1, false)) := by
  refine ⟨?_, ?_, ?_, ?_⟩
  · intro h
    simp only [Enhanced.disconnectPrinter, h]
  · intro p h hdev
    simp only [Enhanced.disconnectPrinter, h]
    rw [if_neg (by simp [hdev])]
  · intro p h hdev
    simp only [Enhanced.disconnectPrinter, h]
    rw [if_pos hdev]
    exact ⟨rfl, eraseFirst_length _ reg p h⟩
  · intro p h
    have hfind : findById (Enhanced.handleDisconnection sup reg pid).1 pid
        = some { p with
                 status := PStatus.disconnected
                 hasDevice := false
                 hasServer := false
                 deviceGattConnected := false
                 connectionAttempts := p.connectionAttempts + 1 } := by
      simp only [Enhanced.handleDisconnection, h]
      rw [findById, find?_updateFirst (fun q => q.id == pid)
        (fun q => { q with
                    status := PStatus.disconnected
                    hasDevice := false
                    hasServer := false
                    deviceGattConnected := false
                    connectionAttempts := q.connectionAttempts + 1 })
        (fun a => rfl) reg]
      rw [← findById, h]
      rfl
    simp only [Enhanced.disconnectPrinter, hfind]
    rw [if_neg (by simp)]

/-- C10 witness: the theorem applied to a singleton registry after a link
drop of its only printer. -/
theorem claim_C10_witness :
    findById [p0] "ble_1" = some p0 ∧
    Enhanced.disconnectPrinter
        (Enhanced.handleDisconnection false [p0] "ble_1").1 "ble_1"
      = ((Enhanced.handleDisconnection false [p0] "ble_1").1, false) :=
  ⟨by decide, (claim_C10 [p0] "ble_1" false).2.2.2 p0 (by decide)⟩

end POSPrinter
